import Mathlib

/-!
Verification of the scam-analysis pipeline (Flask app `app.py` together with
`models/judge.py`).  The pipeline is embedded shallowly: the external
text-generation collaborator is a function `String → Except PyError String`,
the case store's similarity lookup is a function `String → List SimilarCase`,
and the mutable `Judge` object becomes explicit state passing on `JudgeState`.
Python exceptions are modelled by the `Except` error channel.
-/

namespace ScamPipeline

/-- Boolean test that the first list is an initial segment of the second,
written out on characters; used to embed Python substring containment. -/
def startsWithChars : List Char → List Char → Bool
  | [], _ => true
  | _ :: _, [] => false
  | a :: as, b :: bs => a == b && startsWithChars as bs

/-- Boolean substring containment on character lists: the pattern occurs
contiguously somewhere in the list. -/
def hasSubChars (pat : List Char) : List Char → Bool
  | [] => startsWithChars pat []
  | c :: rest => startsWithChars pat (c :: rest) || hasSubChars pat rest

/-- Embeds the Python expression `pat in s` on strings (substring test). -/
def strContains (s pat : String) : Bool :=
  hasSubChars pat.toList s.toList

/-- Splits a character list at every occurrence of the separator, keeping
empty segments, like Python `str.split(sep)` with an explicit separator. -/
def splitOnCharAux (sep : Char) : List Char → List Char → List (List Char)
  | [], acc => [acc.reverse]
  | c :: rest, acc =>
    if c = sep then acc.reverse :: splitOnCharAux sep rest []
    else splitOnCharAux sep rest (c :: acc)

/-- Drops leading whitespace characters. -/
def dropLeadingWs : List Char → List Char
  | [] => []
  | c :: rest => if c.isWhitespace then dropLeadingWs rest else c :: rest

/-- Python `str.strip()` on a character list: whitespace removed from both
ends. -/
def trimChars (cs : List Char) : List Char :=
  (dropLeadingWs (dropLeadingWs cs).reverse).reverse

/-- Python `str.strip()` on strings. -/
def pyStrip (s : String) : String :=
  (trimChars s.toList).asString

/-- Python `str.lower()` on strings. -/
def pyLower (s : String) : String :=
  (s.toList.map Char.toLower).asString

/-- Embeds `[line.strip() for line in text.split('\n') if line.strip()]` from
`judge.py`: split on newlines, strip each line, keep the non-empty ones. -/
def nonEmptyLines (text : String) : List String :=
  (((splitOnCharAux '\n' text.toList []).map trimChars).map List.asString).filter
    (fun l => l != "")

/-- The structured verdict dict produced by `direct_verdict`,
`analyze_debate` and `check_similar_case` in `judge.py`. -/
structure Verdict where
  verdict : String
  summary : String
  evidence : List String
deriving DecidableEq

/-- The fallback summary used in `judge.py` when the generation response has
fewer than two non-empty lines. -/
def fallbackSummary : String :=
  "Legitimate job offer from Persistent Systems with standard recruitment details"

/-- The fallback evidence entry used in `judge.py` when the generation
response has fewer than three non-empty lines. -/
def fallbackEvidence : String :=
  "Company details and contact information match legitimate business practices"

/-- The positional parse shared by `direct_verdict` and `analyze_debate`
(`judge.py` lines 72-77 and 105-110).  Python indexes `lines[0]`
unconditionally, so a response with zero non-empty lines raises IndexError:
that is the `none` branch here.  Otherwise the verdict is "SCAM" exactly when
line 0 lowercased contains "scam", line 1 (if present) is the summary, and
line 2 (if present) is the sole evidence entry. -/
def parseResponse (text : String) : Option Verdict :=
  match nonEmptyLines text with
  | [] => none
  | l0 :: rest =>
    some { verdict := if strContains (pyLower l0) "scam" then "SCAM" else "NOT A SCAM"
         , summary := match rest with
             | [] => fallbackSummary
             | l1 :: _ => l1
         , evidence := match rest with
             | _ :: l2 :: _ => [l2]
             | _ => [fallbackEvidence] }

/-- The Python exceptions the embedded pipeline can raise. -/
inductive PyError where
  | genFailure
  | indexError
  | keyError
  | typeError
deriving DecidableEq

/-- Decidable equality of `Except` results, so concrete pipeline runs can be
checked by evaluation. -/
instance {ε α : Type} [DecidableEq ε] [DecidableEq α] : DecidableEq (Except ε α) := fun x y =>
  match x, y with
  | .error a, .error b =>
    if h : a = b then isTrue (congrArg Except.error h)
    else isFalse (fun hc => h (Except.error.inj hc))
  | .error _, .ok _ => isFalse (fun hc => Except.noConfusion hc)
  | .ok _, .error _ => isFalse (fun hc => Except.noConfusion hc)
  | .ok a, .ok b =>
    if h : a = b then isTrue (congrArg Except.ok h)
    else isFalse (fun hc => h (Except.ok.inj hc))

/-- One record returned by `rag_store.find_similar_cases`.  The fields are
`Option`s because a stored record may lack the `similarity` key or the nested
`verdict.verdict` key; accessing a missing key raises KeyError in Python. -/
structure SimilarCase where
  similarity : Option ℚ
  verdict : Option String
deriving DecidableEq

/-- The topic argument of `check_similar_case` as a Python value: either an
actual string or a value of some other type (`isinstance(topic, str)` fails). -/
inductive PyTopic where
  | str (s : String)
  | nonStr
deriving DecidableEq

/-- The whole-percent rendering `'{:.0f}'.format(similarity * 100)` from
`judge.py` line 50, modelled as rounding the rational to the nearest
integer. -/
def percentDisplay (sim : ℚ) : String :=
  toString (round (sim * 100) : ℤ)

/-- The cached verdict dict built on a cache hit (`judge.py` lines 47-51). -/
def cachedVerdictData (sim : ℚ) (storedVerdict : String) : Verdict :=
  { verdict := if strContains (pyLower storedVerdict) "scam" then "SCAM" else "NOT A SCAM"
  , summary := "Cached verdict based on similar previous case"
  , evidence := ["Similar case found in database with " ++ percentDisplay sim ++ "% match"] }

/-- `Judge.check_similar_case` (`judge.py` lines 26-55).  A non-string or
whitespace-only topic returns `(False, {})` before the store is consulted.
Otherwise the store's ranked lookup runs; with no results the function
returns `(False, {})`.  With results, `best_match['similarity']` is read
(KeyError when absent), compared strictly against 0.65, and on a hit
`best_match['verdict']['verdict']` is read (KeyError when absent) to build
the cached verdict. -/
def check_similar_case (find_similar_cases : String → List SimilarCase)
    (topic : PyTopic) : Except PyError (Bool × Option Verdict) :=
  match topic with
  | .nonStr => .ok (false, none)
  | .str s =>
    if pyStrip s = "" then .ok (false, none)
    else
      match find_similar_cases s with
      | [] => .ok (false, none)
      | best :: _ =>
        match best.similarity with
        | none => .error .keyError
        | some sim =>
          if sim > 65 / 100 then
            match best.verdict with
            | none => .error .keyError
            | some sv => .ok (true, some (cachedVerdictData sim sv))
          else .ok (false, none)

/-- One entry of `Judge.debate_history` (`record_argument`, `judge.py`
lines 18-24). -/
structure DebateEntry where
  speaker : String
  argument : String
deriving DecidableEq

/-- A case as stored by `rag_store.add_case`: `direct_verdict` stores
`{topic, verdict, timestamp}` (no key evidence), `_store_case` additionally
stores `key_evidence` as the JSON dump of the debate history. -/
structure Case where
  topic : String
  verdict : Verdict
  key_evidence : Option String
  timestamp : Nat
deriving DecidableEq

/-- The mutable fields of a `Judge` object: the recorded debate history and
the contents of its RAG store, threaded explicitly. -/
structure JudgeState where
  debate_history : List DebateEntry
  rag_store : List Case
deriving DecidableEq

/-- A freshly constructed `Judge` (`Judge.__init__`): empty debate history,
empty store. -/
def emptyJudgeState : JudgeState := ⟨[], []⟩

/-- `Judge.record_argument`: appends one speaker/argument entry. -/
def record_argument (st : JudgeState) (speaker argument : String) : JudgeState :=
  { st with debate_history := st.debate_history ++ [⟨speaker, argument⟩] }

/-- JSON string escaping for the characters that can appear in the embedded
transcripts (backslash, double quote, newline); other characters are kept
verbatim, as `json.dumps` does for plain text. -/
def jsonEscapeChar (c : Char) : String :=
  if c = '\\' then "\\\\"
  else if c = '"' then "\\\""
  else if c = '\n' then "\\n"
  else String.singleton c

/-- A JSON string literal: escaped content between double quotes. -/
def jsonStr (s : String) : String :=
  "\"" ++ String.join (s.toList.map jsonEscapeChar) ++ "\""

/-- One debate-history dict rendered by `json.dumps(..., indent=2)`. -/
def dumpEntryIndent2 (e : DebateEntry) : String :=
  "  \x7b\n    \"speaker\": " ++ jsonStr e.speaker
    ++ ",\n    \"argument\": " ++ jsonStr e.argument ++ "\n  \x7d"

/-- `json.dumps(debate_history, indent=2)` (`judge.py` line 92): the
serialized transcript computed by `analyze_debate`. -/
def json_dumps_indent2 : List DebateEntry → String
  | [] => "[]"
  | e :: es => "[\n" ++ String.intercalate ",\n" ((e :: es).map dumpEntryIndent2) ++ "\n]"

/-- One debate-history dict rendered by plain `json.dumps`. -/
def dumpEntryCompact (e : DebateEntry) : String :=
  "\x7b\"speaker\": " ++ jsonStr e.speaker
    ++ ", \"argument\": " ++ jsonStr e.argument ++ "\x7d"

/-- `json.dumps(debate_history)` (`judge.py` line 122), used for the stored
`key_evidence` field. -/
def json_dumps_compact (es : List DebateEntry) : String :=
  "[" ++ String.intercalate ", " (es.map dumpEntryCompact) ++ "]"

/-- The prompt built by `direct_verdict` (`judge.py` lines 61-67).  The
source f-string contains no placeholder, so the topic in scope is never
interpolated; the unused binder records that. -/
def direct_verdict_prompt (_topic : String) : String :=
  "\n        Analyze if this message is a scam. Provide exactly:\n        1. Verdict: SCAM or NOT A SCAM\n        2. One sentence summary explaining why\n        3. Single most important evidence point\n        Keep it extremely concise.\n        "

/-- The prompt built by `analyze_debate` (`judge.py` lines 94-100).  The
source f-string references neither the topic nor the `debate_text` variable
computed just above it; the unused binders record both. -/
def analyze_debate_prompt (_topic : String) (_debate_text : String) : String :=
  "\n        Based on the debate about this message, provide exactly:\n        1. Verdict: SCAM or NOT A SCAM\n        2. One sentence summary explaining why\n        3. Single most important evidence point\n        Keep it extremely concise.\n        "

/-- `Judge.direct_verdict` (`judge.py` lines 57-87): one generation call on
the fixed prompt, the positional parse, then `rag_store.add_case` with
`{topic, verdict, timestamp}`.  A generation failure or the IndexError of an
empty response propagates before the store is touched. -/
def direct_verdict (gen : String → Except PyError String) (st : JudgeState)
    (topic : String) (now : Nat) : Except PyError Verdict × JudgeState :=
  match gen (direct_verdict_prompt topic) with
  | .error e => (.error e, st)
  | .ok text =>
    match parseResponse text with
    | none => (.error .indexError, st)
    | some v => (.ok v, { st with rag_store := st.rag_store ++ [⟨topic, v, none, now⟩] })

/-- `Judge._store_case` (`judge.py` lines 117-126): appends a case whose
`key_evidence` is the compact JSON dump of the debate history. -/
def store_case (st : JudgeState) (topic : String) (v : Verdict) (now : Nat) : JudgeState :=
  { st with rag_store :=
      st.rag_store ++ [⟨topic, v, some (json_dumps_compact st.debate_history), now⟩] }

/-- `Judge.analyze_debate` (`judge.py` lines 89-115): serializes the debate
history into `debate_text`, makes one generation call on the prompt (which
does not use `debate_text`), runs the positional parse, then `_store_case`.
Failures propagate before the store is touched. -/
def analyze_debate (gen : String → Except PyError String) (st : JudgeState)
    (topic : String) (now : Nat) : Except PyError Verdict × JudgeState :=
  let debate_text := json_dumps_indent2 st.debate_history
  match gen (analyze_debate_prompt topic debate_text) with
  | .error e => (.error e, st)
  | .ok text =>
    match parseResponse text with
    | none => (.error .indexError, st)
    | some v => (.ok v, store_case st topic v now)

/-- `Judge.analyze_debate` applied to an arbitrary Python topic value.  Its
first statement logs an f-string that slices `topic[:100]` (`judge.py` line
91); the slice raises TypeError for a non-string topic, before any
generation call or store write.  For a string topic the slice succeeds and
the body proceeds.  (`direct_verdict` carries the same slice at line 59.) -/
def analyze_debate_py (gen : String → Except PyError String) (st : JudgeState)
    (topic : PyTopic) (now : Nat) : Except PyError Verdict × JudgeState :=
  match topic with
  | .nonStr => (.error .typeError, st)
  | .str s => analyze_debate gen st s now

/-- The message argument of `analyze_message` in `app.py`: a plain string, a
dict whose `text` field may hold any value or be absent
(`message.get('text', '')`), or a non-string non-dict value, which the
isinstance prologue leaves untouched. -/
inductive PyMessage where
  | str (s : String)
  | dict (text : Option PyTopic)
  | nonStr
deriving DecidableEq

/-- The coercion prologue of `analyze_message`: a dict is replaced by its
`text` field (default ""); any other value passes through unchanged. -/
def coerceMessage : PyMessage → PyTopic
  | .str s => .str s
  | .dict (some t) => t
  | .dict none => .str ""
  | .nonStr => .nonStr

/-- The dict returned by `analyze_message` in `app.py`. -/
structure AnalysisResult where
  message : String
  verdict : String
  summary : String
  evidence : List String
  source : String
deriving DecidableEq

/-- `analyze_message` from `app.py` (the canonical caching variant).  After
the dict coercion it checks the cache on the resulting value; on a hit it
returns the cached verdict with source "cached".  On a miss it proceeds
straight to the debate tier — the word-count tier selection is commented out
in the source — recording the prosecutor ("Scam Analyst") and defender
("Legitimacy Analyst") arguments and calling `analyze_debate`, returning
source "debate".  The two arguments are inputs here, abstracting the
`AILawyer` collaborator calls (their f-strings format non-string topics
without raising).  The arms pairing a hit or a debate success with a
`.nonStr` topic are unreachable: `check_similar_case` never reports a hit
for a non-string topic, and `analyze_debate_py` raises TypeError on one; the
hit-without-verdict arm is the KeyError Python would raise indexing `{}`. -/
def analyze_message (find_similar_cases : String → List SimilarCase)
    (gen : String → Except PyError String)
    (prosecutor_argument defender_argument : String) (now : Nat)
    (msg : PyMessage) : Except PyError AnalysisResult :=
  let message := coerceMessage msg
  match check_similar_case find_similar_cases message with
  | .error e => .error e
  | .ok (true, some cv) =>
    match message with
    | .str s => .ok ⟨s, cv.verdict, cv.summary, cv.evidence, "cached"⟩
    | .nonStr => .error .keyError
  | .ok (true, none) => .error .keyError
  | .ok (false, _) =>
    let st1 := record_argument emptyJudgeState "Scam Analyst" prosecutor_argument
    let st2 := record_argument st1 "Legitimacy Analyst" defender_argument
    match analyze_debate_py gen st2 message now, message with
    | (.error e, _), _ => .error e
    | (.ok v, _), .str s => .ok ⟨s, v.verdict, v.summary, v.evidence, "debate"⟩
    | (.ok _, _), .nonStr => .error .typeError

/-- Counts maximal runs of non-whitespace characters; the boolean tracks
whether the scan is inside a word. -/
def countWordsAux : List Char → Bool → Nat
  | [], _ => 0
  | c :: rest, inWord =>
    if c.isWhitespace then countWordsAux rest false
    else (if inWord then 0 else 1) + countWordsAux rest true

/-- Python `len(message.split())`: the number of whitespace-separated words.
This is the word count named by the spec's tier selection (present in
`app.py` only inside the commented-out tier block). -/
def wordCount (s : String) : Nat :=
  countWordsAux s.toList false

/-! ### General lemmas about the embedded pipeline -/

set_option maxRecDepth 8000

/-- Every line kept by `nonEmptyLines` is non-empty. -/
theorem mem_nonEmptyLines_ne_empty (text l : String) (h : l ∈ nonEmptyLines text) :
    l ≠ "" := by
  unfold nonEmptyLines at h
  have h2 := (List.mem_filter.mp h).2
  simpa [bne_iff_ne] using h2

/-- On a well-formed best match above the threshold, `check_similar_case`
returns the cached verdict. -/
theorem check_similar_case_hit (find : String → List SimilarCase) (s : String)
    (best : SimilarCase) (rest : List SimilarCase) (q : ℚ) (sv : String)
    (hs : pyStrip s ≠ "") (hf : find s = best :: rest)
    (hq : best.similarity = some q) (hgt : 65 / 100 < q)
    (hv : best.verdict = some sv) :
    check_similar_case find (.str s) = .ok (true, some (cachedVerdictData q sv)) := by
  simp [check_similar_case, hs, hf, hq, hv, hgt]

/-- At or below the threshold, `check_similar_case` reports a miss. -/
theorem check_similar_case_low (find : String → List SimilarCase) (s : String)
    (best : SimilarCase) (rest : List SimilarCase) (q : ℚ)
    (hs : pyStrip s ≠ "") (hf : find s = best :: rest)
    (hq : best.similarity = some q) (hle : q ≤ 65 / 100) :
    check_similar_case find (.str s) = .ok (false, none) := by
  simp [check_similar_case, hs, hf, hq, not_lt.mpr hle]

/-- A best match with no similarity field raises KeyError. -/
theorem check_similar_case_missing_similarity (find : String → List SimilarCase)
    (s : String) (best : SimilarCase) (rest : List SimilarCase)
    (hs : pyStrip s ≠ "") (hf : find s = best :: rest)
    (hq : best.similarity = none) :
    check_similar_case find (.str s) = .error .keyError := by
  simp [check_similar_case, hs, hf, hq]

/-- A best match above the threshold with no verdict field raises KeyError. -/
theorem check_similar_case_missing_verdict (find : String → List SimilarCase)
    (s : String) (best : SimilarCase) (rest : List SimilarCase) (q : ℚ)
    (hs : pyStrip s ≠ "") (hf : find s = best :: rest)
    (hq : best.similarity = some q) (hgt : 65 / 100 < q)
    (hv : best.verdict = none) :
    check_similar_case find (.str s) = .error .keyError := by
  simp [check_similar_case, hs, hf, hq, hv, hgt]

/-- A response with at least one non-empty line always parses. -/
theorem parseResponse_isSome_of_lines (text l0 : String) (rest : List String)
    (h : nonEmptyLines text = l0 :: rest) :
    parseResponse text =
      some ⟨if strContains (pyLower l0) "scam" then "SCAM" else "NOT A SCAM",
            rest.head?.getD fallbackSummary,
            [(rest.drop 1).head?.getD fallbackEvidence]⟩ := by
  cases rest with
  | nil => simp [parseResponse, h]
  | cons l1 rest2 =>
    cases rest2 with
    | nil => simp [parseResponse, h]
    | cons l2 rest3 => simp [parseResponse, h]

/-- A cache hit makes `analyze_message` return the cached verdict with
source "cached". -/
theorem analyze_message_of_hit (find : String → List SimilarCase)
    (gen : String → Except PyError String) (p d : String) (now : Nat)
    (msg : PyMessage) (s : String) (cv : Verdict)
    (hmsg : coerceMessage msg = .str s)
    (h : check_similar_case find (.str s) = .ok (true, some cv)) :
    analyze_message find gen p d now msg =
      .ok ⟨s, cv.verdict, cv.summary, cv.evidence, "cached"⟩ := by
  simp [analyze_message, hmsg, h]

/-! ### Claim theorems -/

/-- A 49-word message, below the spec's 50-word debate threshold. -/
def msg49 : String := String.intercalate " " (List.replicate 49 "word")

/-- Claim C1, evaluated against the code: the tier selection is commented out
in `app.py`, so a 49-word message that misses the cache is routed to the
debate tier and the result carries source "debate", not "direct" as the
claim requires. -/
theorem c1_code_routes_49_words_to_debate :
    wordCount msg49 = 49 ∧
    analyze_message (fun _ => []) (fun _ => .ok "SCAM\nSummary line\nEvidence line")
        "p" "d" 0 (.str msg49) =
      .ok ⟨msg49, "SCAM", "Summary line", ["Evidence line"], "debate"⟩ :=
  ⟨rfl, rfl⟩

/-- Claim C2, evaluated against the code: a cache hit on a stored case whose
verdict is "NOT A SCAM" returns verdict "SCAM", because the lowercased
stored verdict "not a scam" contains the substring "scam"; the cached
verdict label is not preserved. -/
theorem c2_cached_not_a_scam_returns_scam :
    analyze_message (fun _ => [⟨some (9 / 10), some "NOT A SCAM"⟩])
        (fun _ => .error .genFailure) "p" "d" 0 (.str "hello")
      = .ok ⟨"hello", "SCAM", "Cached verdict based on similar previous case",
          (cachedVerdictData (9 / 10) "NOT A SCAM").evidence, "cached"⟩ := by
  have hcheck := check_similar_case_hit (fun _ => [⟨some (9 / 10), some "NOT A SCAM"⟩])
      "hello" ⟨some (9 / 10), some "NOT A SCAM"⟩ [] (9 / 10) "NOT A SCAM"
      (by decide) rfl rfl (by norm_num) rfl
  have h2 := analyze_message_of_hit (fun _ => [⟨some (9 / 10), some "NOT A SCAM"⟩])
      (fun _ => .error .genFailure) "p" "d" 0 (.str "hello") "hello" _ rfl hcheck
  rw [h2]
  rfl

/-- Claim C3, counterexample: a generation response with zero non-empty
lines does not parse — `lines[0]` raises IndexError — so the parse is not
total over all response strings. -/
theorem c3_counterexample_empty_response : (parseResponse " \n  \n").isSome = false :=
  rfl

/-- Claim C3 as amended: the positional parse never raises for a response
with at least one non-empty line; with zero non-empty lines it raises
(IndexError, the `none` branch). -/
theorem c3_parse_total_iff_nonempty (text : String) :
    (nonEmptyLines text ≠ [] → (parseResponse text).isSome = true) ∧
    (nonEmptyLines text = [] → parseResponse text = none) := by
  constructor
  · intro hne
    cases h : nonEmptyLines text with
    | nil => exact absurd h hne
    | cons l0 rest => rw [parseResponse_isSome_of_lines text l0 rest h]; rfl
  · intro he
    simp [parseResponse, he]

/-- Witness for C3's amended theorem at the one-line response "SCAM". -/
theorem c3_witness :
    nonEmptyLines "SCAM" ≠ [] ∧ (parseResponse "SCAM").isSome = true :=
  ⟨by decide, (c3_parse_total_iff_nonempty "SCAM").1 (by decide)⟩

/-- A one-entry debate transcript used to evaluate C4. -/
def sampleTranscript : List DebateEntry := [⟨"Scam Analyst", "This is a scam"⟩]

/-- Claim C4, evaluated against the code: `analyze_debate` computes the
serialized transcript into `debate_text` but its prompt f-string never
interpolates it; the prompt does not contain the serialized transcript of a
recorded debate, and is the same string whatever the transcript is. -/
theorem c4_prompt_omits_transcript :
    strContains (analyze_debate_prompt "topic" (json_dumps_indent2 sampleTranscript))
        (json_dumps_indent2 sampleTranscript) = false ∧
    ∀ t d1 d2, analyze_debate_prompt t d1 = analyze_debate_prompt t d2 :=
  ⟨rfl, fun _ _ _ => rfl⟩

/-- Claim C5, counterexample: a generation collaborator that returns
normally with an all-whitespace response makes `direct_verdict` raise
(IndexError in the parse) and store nothing, so a normal collaborator
return does not guarantee a stored case. -/
theorem c5_counterexample_empty_response_stores_nothing :
    direct_verdict (fun _ => .ok "") emptyJudgeState "topic" 0
      = (.error .indexError, emptyJudgeState) :=
  rfl

/-- Claim C5 as amended: a collaborator error propagates from
`direct_verdict` and `analyze_debate` with the store unchanged; a normal
return whose response has zero non-empty lines raises IndexError with the
store unchanged; a normal return with at least one non-empty line appends
exactly one case. -/
theorem c5_store_iff_synthesis_succeeds (gen : String → Except PyError String)
    (st : JudgeState) (topic : String) (now : Nat) :
    (∀ e, gen (direct_verdict_prompt topic) = .error e →
      direct_verdict gen st topic now = (.error e, st)) ∧
    (∀ text, gen (direct_verdict_prompt topic) = .ok text → nonEmptyLines text = [] →
      direct_verdict gen st topic now = (.error .indexError, st)) ∧
    (∀ text, gen (direct_verdict_prompt topic) = .ok text → nonEmptyLines text ≠ [] →
      ∃ v, direct_verdict gen st topic now =
        (.ok v, { st with rag_store := st.rag_store ++ [⟨topic, v, none, now⟩] })) ∧
    (∀ e, gen (analyze_debate_prompt topic (json_dumps_indent2 st.debate_history)) = .error e →
      analyze_debate gen st topic now = (.error e, st)) ∧
    (∀ text, gen (analyze_debate_prompt topic (json_dumps_indent2 st.debate_history)) = .ok text →
      nonEmptyLines text = [] →
      analyze_debate gen st topic now = (.error .indexError, st)) ∧
    (∀ text, gen (analyze_debate_prompt topic (json_dumps_indent2 st.debate_history)) = .ok text →
      nonEmptyLines text ≠ [] →
      ∃ v, analyze_debate gen st topic now =
        (.ok v, { st with rag_store :=
            st.rag_store ++ [⟨topic, v, some (json_dumps_compact st.debate_history), now⟩] })) := by
  refine ⟨?_, ?_, ?_, ?_, ?_, ?_⟩
  · intro e h
    simp [direct_verdict, h]
  · intro text h hl
    simp [direct_verdict, h, parseResponse, hl]
  · intro text h hl
    cases hx : nonEmptyLines text with
    | nil => exact absurd hx hl
    | cons l0 rest =>
      refine ⟨⟨if strContains (pyLower l0) "scam" then "SCAM" else "NOT A SCAM",
              rest.head?.getD fallbackSummary,
              [(rest.drop 1).head?.getD fallbackEvidence]⟩, ?_⟩
      simp [direct_verdict, h, parseResponse_isSome_of_lines text l0 rest hx]
  · intro e h
    simp [analyze_debate, h]
  · intro text h hl
    simp [analyze_debate, h, parseResponse, hl]
  · intro text h hl
    cases hx : nonEmptyLines text with
    | nil => exact absurd hx hl
    | cons l0 rest =>
      refine ⟨⟨if strContains (pyLower l0) "scam" then "SCAM" else "NOT A SCAM",
              rest.head?.getD fallbackSummary,
              [(rest.drop 1).head?.getD fallbackEvidence]⟩, ?_⟩
      simp [analyze_debate, h, parseResponse_isSome_of_lines text l0 rest hx, store_case]

/-- Witness for C5's amended theorem: a one-line normal response appends one
case, and a collaborator error propagates with the store unchanged. -/
theorem c5_witness :
    (∃ v, direct_verdict (fun _ => .ok "SCAM") emptyJudgeState "t" 0 =
      (.ok v, { emptyJudgeState with
          rag_store := emptyJudgeState.rag_store ++ [⟨"t", v, none, 0⟩] })) ∧
    direct_verdict (fun _ => .error .genFailure) emptyJudgeState "t" 0
      = (.error .genFailure, emptyJudgeState) :=
  ⟨(c5_store_iff_synthesis_succeeds (fun _ => .ok "SCAM") emptyJudgeState "t" 0).2.2.1
      "SCAM" rfl (by decide),
   (c5_store_iff_synthesis_succeeds (fun _ => .error .genFailure) emptyJudgeState "t" 0).1
      .genFailure rfl⟩

/-- Claim C6: the cache-hit test compares the best-match similarity strictly
against 0.65 — at or below the threshold the lookup is a miss, strictly
above it (with the verdict field present) it is a hit. -/
theorem c6_threshold_strict (find : String → List SimilarCase) (s : String)
    (best : SimilarCase) (rest : List SimilarCase) (q : ℚ)
    (hs : pyStrip s ≠ "") (hf : find s = best :: rest)
    (hq : best.similarity = some q) :
    (q ≤ 65 / 100 → check_similar_case find (.str s) = .ok (false, none)) ∧
    (65 / 100 < q → ∀ sv, best.verdict = some sv →
      check_similar_case find (.str s) = .ok (true, some (cachedVerdictData q sv))) :=
  ⟨fun hle => check_similar_case_low find s best rest q hs hf hq hle,
   fun hgt sv hv => check_similar_case_hit find s best rest q sv hs hf hq hgt hv⟩

/-- Witness for C6 at the boundary: similarity exactly 0.65 misses,
similarity 0.6500001 hits. -/
theorem c6_witness :
    check_similar_case (fun _ => [⟨some (65 / 100), some "SCAM"⟩]) (.str "hello")
      = .ok (false, none) ∧
    check_similar_case (fun _ => [⟨some (6500001 / 10000000), some "SCAM"⟩]) (.str "hello")
      = .ok (true, some (cachedVerdictData (6500001 / 10000000) "SCAM")) :=
  ⟨(c6_threshold_strict (fun _ => [⟨some (65 / 100), some "SCAM"⟩]) "hello"
      ⟨some (65 / 100), some "SCAM"⟩ [] (65 / 100) (by decide) rfl rfl).1 (by norm_num),
   (c6_threshold_strict (fun _ => [⟨some (6500001 / 10000000), some "SCAM"⟩]) "hello"
      ⟨some (6500001 / 10000000), some "SCAM"⟩ [] (6500001 / 10000000)
      (by decide) rfl rfl).2 (by norm_num) "SCAM" rfl⟩

/-- Claim C7: for a response with at least one non-empty line, the verdict
is "SCAM" exactly when line 0 lowercased contains "scam" (else
"NOT A SCAM"), line 1 (or the fallback) is the summary, line 2 (or the
fallback) is the sole evidence entry, and both are non-empty even for a
one-line response. -/
theorem c7_parse_positional (text l0 : String) (rest : List String)
    (h : nonEmptyLines text = l0 :: rest) :
    ∃ v, parseResponse text = some v ∧
      (v.verdict = "SCAM" ↔ strContains (pyLower l0) "scam" = true) ∧
      (strContains (pyLower l0) "scam" = false → v.verdict = "NOT A SCAM") ∧
      v.summary = rest.head?.getD fallbackSummary ∧
      v.evidence = [(rest.drop 1).head?.getD fallbackEvidence] ∧
      v.summary ≠ "" ∧ (∀ e ∈ v.evidence, e ≠ "") := by
  refine ⟨⟨if strContains (pyLower l0) "scam" then "SCAM" else "NOT A SCAM",
          rest.head?.getD fallbackSummary,
          [(rest.drop 1).head?.getD fallbackEvidence]⟩,
        parseResponse_isSome_of_lines text l0 rest h, ?_, ?_, rfl, rfl, ?_, ?_⟩
  · cases hb : strContains (pyLower l0) "scam"
    · simp [hb]
    · simp [hb]
  · intro hb
    simp [hb]
  · cases rest with
    | nil => exact (by decide : fallbackSummary ≠ "")
    | cons l1 rest2 =>
      have hm : l1 ∈ nonEmptyLines text := by
        rw [h]
        exact List.mem_cons_of_mem _ (List.mem_cons_self _ _)
      exact mem_nonEmptyLines_ne_empty text l1 hm
  · intro e he
    cases rest with
    | nil =>
      have hef : e = fallbackEvidence := by simpa using he
      subst hef
      decide
    | cons l1 rest2 =>
      cases rest2 with
      | nil =>
        have hef : e = fallbackEvidence := by simpa using he
        subst hef
        decide
      | cons l2 rest3 =>
        have hel : e = l2 := by simpa using he
        have hm : l2 ∈ nonEmptyLines text := by
          rw [h]
          exact List.mem_cons_of_mem _ (List.mem_cons_of_mem _ (List.mem_cons_self _ _))
        rw [hel]
        exact mem_nonEmptyLines_ne_empty text l2 hm

/-- Witness for C7 at a three-line response. -/
theorem c7_witness :
    ∃ v, parseResponse "Verdict: SCAM\nIt asks for an upfront fee\nFee demand" = some v ∧
      (v.verdict = "SCAM" ↔ strContains (pyLower "Verdict: SCAM") "scam" = true) ∧
      (strContains (pyLower "Verdict: SCAM") "scam" = false → v.verdict = "NOT A SCAM") ∧
      v.summary = (["It asks for an upfront fee", "Fee demand"].head?.getD fallbackSummary) ∧
      v.evidence = [((["It asks for an upfront fee", "Fee demand"].drop 1).head?.getD fallbackEvidence)] ∧
      v.summary ≠ "" ∧ (∀ e ∈ v.evidence, e ≠ "") :=
  c7_parse_positional "Verdict: SCAM\nIt asks for an upfront fee\nFee demand"
    "Verdict: SCAM" ["It asks for an upfront fee", "Fee demand"] (by decide)

/-- Claim C9, counterexample: a best-match record with no similarity field
makes the cache check raise KeyError instead of treating it as no match. -/
theorem c9_counterexample_missing_similarity_raises :
    check_similar_case (fun _ => [⟨none, some "SCAM"⟩]) (.str "hello") = .error .keyError :=
  rfl

/-- Claim C9 as amended: a best-match record missing the similarity field
raises KeyError; one missing the verdict field raises KeyError when its
similarity exceeds the threshold; at or below the threshold the verdict
field is never read and the lookup is a miss. -/
theorem c9_missing_fields_raise (find : String → List SimilarCase) (s : String)
    (best : SimilarCase) (rest : List SimilarCase)
    (hs : pyStrip s ≠ "") (hf : find s = best :: rest) :
    (best.similarity = none → check_similar_case find (.str s) = .error .keyError) ∧
    (∀ q, best.similarity = some q → 65 / 100 < q → best.verdict = none →
      check_similar_case find (.str s) = .error .keyError) ∧
    (∀ q, best.similarity = some q → q ≤ 65 / 100 →
      check_similar_case find (.str s) = .ok (false, none)) :=
  ⟨fun hq => check_similar_case_missing_similarity find s best rest hs hf hq,
   fun q hq hgt hv => check_similar_case_missing_verdict find s best rest q hs hf hq hgt hv,
   fun q hq hle => check_similar_case_low find s best rest q hs hf hq hle⟩

/-- Witness for C9's amended theorem: a record with no similarity field and
a record with no verdict field above the threshold both raise KeyError. -/
theorem c9_witness :
    check_similar_case (fun _ => [⟨none, some "SCAM"⟩]) (.str "hi") = .error .keyError ∧
    check_similar_case (fun _ => [⟨some (9 / 10), none⟩]) (.str "hi") = .error .keyError :=
  ⟨(c9_missing_fields_raise (fun _ => [⟨none, some "SCAM"⟩]) "hi"
      ⟨none, some "SCAM"⟩ [] (by decide) rfl).1 rfl,
   (c9_missing_fields_raise (fun _ => [⟨some (9 / 10), none⟩]) "hi"
      ⟨some (9 / 10), none⟩ [] (by decide) rfl).2.1 (9 / 10) rfl (by norm_num) rfl⟩

/-- Claim C10: the prompt built by `direct_verdict` is the same string for
any two topics, so for a fixed collaborator the verdict returned (the first
component; only the stored case records the topic) is independent of the
message analyzed. -/
theorem c10_direct_prompt_independent_of_topic (t1 t2 : String)
    (gen : String → Except PyError String) (st : JudgeState) (now : Nat) :
    direct_verdict_prompt t1 = direct_verdict_prompt t2 ∧
    (direct_verdict gen st t1 now).1 = (direct_verdict gen st t2 now).1 := by
  refine ⟨rfl, ?_⟩
  cases h : gen (direct_verdict_prompt t1) with
  | error e =>
    have h2 : gen (direct_verdict_prompt t2) = .error e := h
    simp [direct_verdict, h, h2]
  | ok text =>
    have h2 : gen (direct_verdict_prompt t2) = .ok text := h
    cases hp : parseResponse text <;> simp [direct_verdict, h, h2, hp]

end ScamPipeline
